import Mathlib

/-!
Shallow embedding of anyufly/file-migrator (Go).

Source files: migrator.go (version naming, migration file emission),
command.go (CLI command handlers), logger.go (logger capability).

Modelling conventions:
* Go strings are byte slices; every string a claim touches is ASCII, where
  Lean Char-level operations agree with Go byte-level ones (UTF-8 preserves
  code-point order, so lexicographic order also agrees).
* `uint64` / `int` values are Nat / Int with explicit wrap-around
  (`% 2 ^ 64`, `toInt64`) exactly where Go overflow can occur.
* The migrations directory is modelled as a list of `(basename, content)`
  pairs; `filepath.Glob` over `dir/PATTERN` is modelled as the sorted list of
  basenames matching PATTERN (all entries share the `dir` prefix, so sorting
  basenames agrees with sorting the full paths, and `filepath.Base` is the
  identity on the match).  Basenames contain no path separator and no glob
  metacharacter, which holds for every name the claims quantify over.
* `time.Now` / `time.LoadLocation` / `Time.Format` are impure; they are
  modelled by an explicit environment `TimeEnv` whose `GoTime` values carry
  the observations the code extracts (formatting, Unix seconds/nanoseconds).
* Fallible Go functions returning `(T, error)` become `Except String T`.
-/

/-! ## String helpers (Go stdlib fragments used by migrator.go) -/

/-- Byte-wise `<=` on strings (Go string comparison), char by char. -/
def lexLe : List Char → List Char → Bool
  | [], _ => true
  | _ :: _, [] => false
  | a :: as, b :: bs => if a < b then true else if a = b then lexLe as bs else false

def strLe (a b : String) : Bool := lexLe a.data b.data

def insertStr (x : String) : List String → List String
  | [] => [x]
  | y :: ys => if strLe x y then x :: y :: ys else y :: insertStr x ys

/-- Insertion sort by byte-wise order; models the sortedness of
`filepath.Glob` output. -/
def sortStrs : List String → List String
  | [] => []
  | x :: xs => insertStr x (sortStrs xs)

def strEndsWith (s suf : String) : Bool := suf.data.isSuffixOf s.data

def strStartsWith (s pre : String) : Bool := pre.data.isPrefixOf s.data

def strTake (s : String) (n : Nat) : String := String.mk (s.data.take n)

/-- Go `strings.Index(s, "_")`: index of the first underscore, `-1` if none.
(Byte index in Go; equal to the char index whenever the prefix before the
underscore is ASCII, which the parse hypothesis below forces.) -/
def strIndexUnderscore (s : String) : Int :=
  match s.data.findIdx? (fun c => c = '_') with
  | some i => (i : Int)
  | none => -1

def isDigitCh (c : Char) : Bool := decide ('0' ≤ c) && decide (c ≤ '9')

def digitVal (c : Char) : Nat := c.toNat - '0'.toNat

def digitsVal (l : List Char) : Nat := l.foldl (fun a c => a * 10 + digitVal c) 0

/-- Go `strconv.ParseUint(s, 10, 64)`: succeeds exactly on a non-empty
all-digit string whose value fits in 64 bits (Go also rejects signs in
base 10 and returns `ErrRange` past `2^64-1`). -/
def parseUint64 (s : String) : Option Nat :=
  if s.data ≠ [] ∧ s.data.all isDigitCh = true ∧ digitsVal s.data < 2 ^ 64 then
    some (digitsVal s.data)
  else none

/-- Go `int(n)` applied to a `uint64`: two-complement wrap into
`[-2^63, 2^63)`. -/
def toInt64 (n : Nat) : Int := if n < 2 ^ 63 then (n : Int) else (n : Int) - 2 ^ 64

def natDecStr (n : Nat) : String := toString n

def intDecStr (n : Int) : String := toString n

/-- Go `fmt.Sprintf("%0[2]*[1]d", n, width)`: decimal of `n`, left-padded
with zeros to `width` (never truncated). -/
def padZero (width : Int) (n : Nat) : String :=
  let s := natDecStr n
  if (s.length : Int) < width then
    String.mk (List.replicate (width.toNat - s.length) '0' ++ s.data)
  else s

/-- Go `filepath.Join(dir, name)` for a clean `dir` and separator-free
`name`. -/
def pathJoin (dir name : String) : String := dir ++ "/" ++ name

/-! ## migrator.go: version naming -/

def defaultTimeFormat : String := "20060102150405"

def errInvalidSequenceWidth : String := "digits must be positive"

def errIncompatibleSeqAndFormat : String :=
  "the seq and format options are mutually exclusive"

/-- `filepath.Glob(filepath.Join(dir, "*" ++ ext))` over the directory
listing `files` (basenames): the sorted matching names.  `*` matches any
separator-free run, so a basename matches iff it ends with `ext`. -/
def globSorted (files : List String) (ext : String) : List String :=
  sortStrs (files.filter (fun f => strEndsWith f ext))

/-- migrator.go `nextSeqVersion` (lines 54-94): take the lexicographically
last file matching `*ext`, parse its prefix before the first `_` as a
uint64, increment (64-bit wrap), zero-pad to `seqDigits`.  Error messages
follow the Go sources; the `strconv` failure message is abbreviated. -/
def nextSeqVersion (files : List String) (ext : String) (seqDigits : Int) :
    Except String String :=
  let globList := globSorted files ext
  if seqDigits ≤ 0 then .error errInvalidSequenceWidth
  else
    let seqRes : Except String Nat :=
      match globList.getLast? with
      | none => .ok 1
      | some filename =>
        let idx := strIndexUnderscore filename
        if idx < 1 then .error ("malformed migration filename: " ++ filename)
        else
          match parseUint64 (strTake filename idx.toNat) with
          | none => .error ("invalid uint64: " ++ strTake filename idx.toNat)
          | some v => .ok ((v + 1) % 2 ^ 64)
    match seqRes with
    | .error e => .error e
    | .ok nextSeq =>
      let version := padZero seqDigits nextSeq
      if seqDigits < (version.length : Int) then
        .error ("next sequence number " ++ version ++ " too large. At most "
          ++ intDecStr seqDigits ++ " digits are allowed")
      else .ok version

/-- Observations of a Go `time.Time` value used by `timeVersion`:
`t.Format pattern`, `t.Unix()`, `t.UnixNano()`. -/
structure GoTime where
  Format : String → String
  unix : Int
  unixNano : Int

/-- Environment for `time.Now` / `time.LoadLocation`: `localNow` is now in
the local timezone; `nowIn tz` is now in timezone `tz` when
`time.LoadLocation tz` succeeds, `none` when it fails. -/
structure TimeEnv where
  localNow : GoTime
  nowIn : String → Option GoTime

/-- migrator.go `timeVersion` (lines 96-120). -/
def timeVersion (env : TimeEnv) (timeZoneName : String) (format : String) :
    Except String String :=
  match (if timeZoneName = "" then some env.localNow else env.nowIn timeZoneName) with
  | none => .error ("unknown time zone " ++ timeZoneName)
  | some now =>
    .ok (if format = "" then now.Format defaultTimeFormat
      else if format = "unix" then intDecStr now.unix
      else if format = "unixNano" then intDecStr now.unixNano
      else now.Format format)

/-! ## migrator.go: file emission -/

/-- Go `strings.TrimPrefix(s, ".")`. -/
def trimDot (s : String) : String :=
  match s.data with
  | '.' :: rest => String.mk rest
  | _ => s

/-- Extension normalization in `upAndDownFilePath` (lines 137-141):
empty becomes `.sql`, otherwise a single leading dot is stripped and a dot
is prepended. -/
def normalizeExt (ext : String) : String :=
  if ext = "" then ".sql" else "." ++ trimDot ext

/-- A basename matches the duplicate glob `version_*ext`
(`filepath.Glob(filepath.Join(dir, version ++ "_*" ++ ext))`, lines
157-158): it decomposes as `version ++ "_" ++ s ++ ext`. -/
def migMatch (version ext f : String) : Bool :=
  strStartsWith f (version ++ "_") && strEndsWith f ext &&
    decide ((version ++ "_").length + ext.length ≤ f.length)

/-- The version computed by `upAndDownFilePath` (lines 143-155): sequential
or time-based. -/
def computeVersion (env : TimeEnv) (names : List String)
    (timeZoneName format ext : String) (seq : Bool) (seqDigits : Int) :
    Except String String :=
  if seq then nextSeqVersion names ext seqDigits
  else timeVersion env timeZoneName format

/-- migrator.go `upAndDownFilePath` (lines 127-172) over directory listing
`names`.  NOTE both returned paths are built with the literal `"up"`, as in
the source (lines 168-169). -/
def upAndDownFilePath (env : TimeEnv) (dir : String) (names : List String)
    (timeZoneName format name ext : String) (seq : Bool) (seqDigits : Int) :
    Except String (String × String) :=
  if seq && (format != defaultTimeFormat) then .error errIncompatibleSeqAndFormat
  else
    let ext := normalizeExt ext
    match computeVersion env names timeZoneName format ext seq seqDigits with
    | .error e => .error e
    | .ok version =>
      if names.any (migMatch version ext) then
        .error ("duplicate migration version: " ++ version)
      else
        .ok (pathJoin dir (version ++ "_" ++ name ++ "." ++ "up" ++ ext),
             pathJoin dir (version ++ "_" ++ name ++ "." ++ "up" ++ ext))

/-- Observables of the external `result.MigrateSQLResult` collaborator used
by `MakeMigrate`: `Up()` / `Down()` as table-keyed statement lists (the Go
map iteration fixed to the list order) and `Empty()`. -/
structure MigrateSQLResult where
  up : List (String × List String)
  down : List (String × List String)
  empty : Bool

/-- Serialization of one side in `MakeMigrate` (lines 194-209): per table a
`--table` header line, then each statement as `sql;`. -/
def renderSide (side : List (String × List String)) : String :=
  String.join (side.map (fun t =>
    "--" ++ t.1 ++ "\n" ++ String.join (t.2.map (fun sql => sql ++ ";\n"))))

/-- Go `filepath.Base`. -/
def baseName (p : String) : String := (p.splitOn "/").getLastD p

/-- `os.WriteFile`: create or overwrite. -/
def writeFile (fs : List (String × String)) (path content : String) :
    List (String × String) :=
  if fs.any (fun p => p.1 == path) then
    fs.map (fun p => if p.1 == path then (path, content) else p)
  else fs ++ [(path, content)]

/-- Outcome of `MakeMigrate`: returned error, migrations directory contents
after the call, and the log lines emitted through `m.migrate.Log`. -/
structure MakeResult where
  err : Option String
  fs : List (String × String)
  logs : List String

/-- migrator.go `MakeMigrate` (lines 174-221).  `migrateOutcome` is the
result of the injected `migrateFunc`; `fs` maps basenames in the migrations
directory to contents. -/
def MakeMigrate (env : TimeEnv) (dir : String) (fs : List (String × String))
    (migrateOutcome : Except String MigrateSQLResult)
    (timeZoneName format name ext : String) (seq : Bool) (seqDigits : Int) :
    MakeResult :=
  match migrateOutcome with
  | .error e => ⟨some e, fs, []⟩
  | .ok r =>
    if r.empty then ⟨none, fs, ["no change"]⟩
    else
      match upAndDownFilePath env dir (fs.map Prod.fst)
          timeZoneName format name ext seq seqDigits with
      | .error e => ⟨some e, fs, []⟩
      | .ok (up, down) =>
        let fs1 := writeFile fs (baseName up) (renderSide r.up)
        let fs2 := writeFile fs1 (baseName down) (renderSide r.down)
        ⟨none, fs2, []⟩

/-! ## command.go: command surface -/

/-- Errors coming back from the external migration engine: the
`migrate.ErrNoChange` sentinel or any other engine error. -/
inductive EngineErr where
  | noChange
  | other (msg : String)
deriving DecidableEq

/-- What a command handler does with an engine outcome: proceed normally,
log informationally (`logger.Info`), or fail fatally (`logger.Fatal`, which
exits the process). -/
inductive CmdAction where
  | ok
  | info
  | fatal
deriving DecidableEq

/-- goto handler, command.go lines 202-207. -/
def gotoHandleErr : Option EngineErr → CmdAction
  | none => .ok
  | some e => if e = .noChange then .info else .fatal

/-- up handler, command.go lines 238-243. -/
def upHandleErr : Option EngineErr → CmdAction
  | none => .ok
  | some e => if e = .noChange then .info else .fatal

/-- down handler, command.go lines 307-312. -/
def downHandleErr : Option EngineErr → CmdAction
  | none => .ok
  | some e => if e = .noChange then .info else .fatal

/-- drop handler, command.go lines 349-351: no sentinel exemption. -/
def dropHandleErr : Option EngineErr → CmdAction
  | none => .ok
  | some _ => .fatal

/-- force handler, command.go lines 387-389: no sentinel exemption. -/
def forceHandleErr : Option EngineErr → CmdAction
  | none => .ok
  | some _ => .fatal

/-- The guard `v < -1` in the force handler (command.go line 382), applied
to the value parsed by `strconv.ParseUint`, read as integer comparison. -/
def forceGuardHolds (v : Nat) : Bool := decide ((v : Int) < -1)

/-- command.go `numDownMigrationsFromArgs` (lines 255-276): number of down
migrations and whether confirmation is needed.  `int(n)` wraps via
`toInt64`. -/
def numDownMigrationsFromArgs (applyAll : Bool) (args : List String) :
    Except String (Int × Bool) :=
  if applyAll then
    match args with
    | [] => .ok (-1, false)
    | _ :: _ => .error "-all cannot be used with other arguments"
  else
    match args with
    | [] => .ok (-1, true)
    | [a] =>
      match parseUint64 a with
      | none => .error "cannot read limit argument N"
      | some n => .ok (toInt64 n, false)
    | _ => .error "too many arguments"

/-- down handler (command.go lines 287-304): the confirmation prompt is
shown exactly when `numDownMigrationsFromArgs` succeeds with `true`. -/
def downConfirmRequested (applyAll : Bool) (args : List String) : Bool :=
  match numDownMigrationsFromArgs applyAll args with
  | .ok (_, c) => c
  | .error _ => false

/-! ## Concrete sample environment for witnesses -/

/-- A sample frozen time: 2024-01-01 00:00:00 UTC. -/
def sampleTime : GoTime :=
  ⟨fun p => if p = defaultTimeFormat then "20240101000000" else "FMT:" ++ p,
    1704067200, 1704067200000000000⟩

/-- A sample environment: local time is `sampleTime`; only the timezone
name "UTC" resolves. -/
def sampleEnv : TimeEnv :=
  ⟨sampleTime, fun tz => if tz = "UTC" then some sampleTime else none⟩

/-! ## Helper lemmas -/

lemma natDecStr_one : natDecStr 1 = "1" := rfl

lemma padZero_length_of_fit (W : Int) (n : Nat)
    (h : ((natDecStr n).length : Int) ≤ W) :
    ((padZero W n).length : Int) = W.toNat := by
  unfold padZero
  by_cases hlt : ((natDecStr n).length : Int) < W
  · rw [if_pos hlt]
    show ((List.replicate (W.toNat - (natDecStr n).length) '0'
      ++ (natDecStr n).data).length : Int) = W.toNat
    rw [List.length_append, List.length_replicate]
    have : (natDecStr n).data.length = (natDecStr n).length := rfl
    omega
  · rw [if_neg hlt]
    omega

lemma trimDot_no_dot (e : String) (hdot : e.data.head? ≠ some '.') :
    trimDot e = e := by
  unfold trimDot
  split
  · next rest heq =>
    exact absurd (by rw [heq]; rfl) hdot
  · rfl

lemma trimDot_dot (e : String) : trimDot ("." ++ e) = e := by
  have hd : ("." ++ e).data = '.' :: e.data := by
    rw [String.data_append]; rfl
  unfold trimDot
  split
  · next rest heq =>
    rw [hd] at heq
    have h2 : rest = e.data := by
      injection heq with _ h
      exact h.symm
    rw [h2]
  · next hne =>
    exact absurd hd (hne e.data)

lemma data_ne_nil_of_ne_empty (e : String) (hne : e ≠ "") : e.data ≠ [] := by
  intro h
  apply hne
  cases e with
  | mk l => cases h; rfl

lemma dot_append_ne_empty (e : String) : ("." ++ e) ≠ "" := by
  intro h
  have : ("." ++ e).data = [] := by rw [h]
  rw [String.data_append] at this
  exact absurd this (by simp)

lemma normalizeExt_no_dot (e : String) (hne : e ≠ "")
    (hdot : e.data.head? ≠ some '.') : normalizeExt e = "." ++ e := by
  unfold normalizeExt
  rw [if_neg hne, trimDot_no_dot e hdot]

lemma normalizeExt_dot (e : String) : normalizeExt ("." ++ e) = "." ++ e := by
  unfold normalizeExt
  rw [if_neg (dot_append_ne_empty e), trimDot_dot e]

/-! ## Claims -/

/-- Claim C1 (code bug): at a concrete create call, the two paths returned
by `upAndDownFilePath` are identical, and both end in `.up.sql`; the
claimed `.down` path never appears because migrator.go line 169 builds the
down path with the literal `"up"` as well. -/
theorem upAndDownFilePath_paths_identical :
    upAndDownFilePath sampleEnv "migrations" [] "" "" "init" "" false 6
      = .ok ("migrations/20240101000000_init.up.sql",
             "migrations/20240101000000_init.up.sql") := rfl

/-- Claim C2 (code bug): with `seq = true` and the CLI's default empty
format string, `upAndDownFilePath` returns the mutual-exclusion error
instead of computing a sequential version, because the guard compares the
format against `defaultTimeFormat` while the `--format` flag defaults to
the empty string (command.go line 175). -/
theorem upAndDownFilePath_seq_empty_format_errors :
    upAndDownFilePath sampleEnv "migrations" [] "" "" "init" "" true 6
      = .error errIncompatibleSeqAndFormat := rfl

/-- Claim C9: the fatal branch guarded by `v < -1` in the force handler is
unreachable: whenever `strconv.ParseUint` succeeds, the parsed value is a
natural number, and the guard, read as an integer comparison, is false. -/
theorem forceGuard_unreachable (s : String) (v : Nat)
    (h : parseUint64 s = some v) : forceGuardHolds v = false := by
  unfold forceGuardHolds
  simp only [decide_eq_false_iff_not, not_lt]
  omega

/-- Claim C9 witness. -/
theorem forceGuard_unreachable_witness :
    parseUint64 "5" = some 5 ∧ forceGuardHolds 5 = false :=
  ⟨by decide, forceGuard_unreachable "5" 5 (by decide)⟩

/-- Claim C7: `timeVersion` resolves the timezone (local when the name is
empty), then formats: empty format uses the default pattern
`20060102150405`, `unix` the decimal Unix seconds, `unixNano` the decimal
Unix nanoseconds, any other string a custom pattern; an unknown timezone
name is an error. -/
theorem timeVersion_spec (env : TimeEnv) (tz : String) (t : GoTime)
    (hres : (if tz = "" then some env.localNow else env.nowIn tz) = some t) :
    timeVersion env tz "" = .ok (t.Format defaultTimeFormat) ∧
    timeVersion env tz "unix" = .ok (intDecStr t.unix) ∧
    timeVersion env tz "unixNano" = .ok (intDecStr t.unixNano) ∧
    (∀ format, format ≠ "" → format ≠ "unix" → format ≠ "unixNano" →
      timeVersion env tz format = .ok (t.Format format)) ∧
    (∀ tzBad format, tzBad ≠ "" → env.nowIn tzBad = none →
      timeVersion env tzBad format = .error ("unknown time zone " ++ tzBad)) := by
  refine ⟨?_, ?_, ?_, ?_, ?_⟩
  · unfold timeVersion; rw [hres]; rfl
  · unfold timeVersion; rw [hres]; simp
  · unfold timeVersion; rw [hres]; simp
  · intro format h1 h2 h3
    unfold timeVersion; rw [hres]
    simp only [if_neg h1, if_neg h2, if_neg h3]
  · intro tzBad format h1 h2
    unfold timeVersion
    rw [if_neg h1, h2]

/-- Claim C7 witness. -/
theorem timeVersion_spec_witness :
    timeVersion sampleEnv "" "unix" = .ok (intDecStr sampleTime.unix) :=
  (timeVersion_spec sampleEnv "" sampleTime rfl).2.1

/-- Claim C5: when the injected migrate function returns an empty result,
`MakeMigrate` writes nothing, logs "no change", and returns no error. -/
theorem MakeMigrate_empty_no_change (env : TimeEnv) (dir : String)
    (fs : List (String × String)) (r : MigrateSQLResult)
    (tz format name ext : String) (seq : Bool) (seqDigits : Int)
    (h : r.empty = true) :
    MakeMigrate env dir fs (.ok r) tz format name ext seq seqDigits
      = ⟨none, fs, ["no change"]⟩ := by
  simp [MakeMigrate, h]

/-- Claim C5 witness. -/
theorem MakeMigrate_empty_no_change_witness :
    MakeMigrate sampleEnv "migrations" [("000001_a.up.sql", "x")]
        (.ok ⟨[], [], true⟩) "" "" "init" "" false 6
      = ⟨none, [("000001_a.up.sql", "x")], ["no change"]⟩ :=
  MakeMigrate_empty_no_change sampleEnv "migrations" [("000001_a.up.sql", "x")]
    ⟨[], [], true⟩ "" "" "init" "" false 6 rfl

/-- Claim C6 counterexample: the drop handler treats the no-change sentinel
as fatal, contrary to the claim that all five handlers log it
informationally. -/
theorem dropHandleErr_noChange_fatal :
    dropHandleErr (some EngineErr.noChange) = CmdAction.fatal ∧
    CmdAction.fatal ≠ CmdAction.info := ⟨rfl, by decide⟩

/-- Claim C6 amended: the goto, up and down handlers log the no-change
sentinel informationally and treat every other engine error as fatal; the
drop and force handlers treat every engine error, the sentinel included,
as fatal. -/
theorem handleEngineErr_spec :
    (gotoHandleErr none = CmdAction.ok ∧ upHandleErr none = CmdAction.ok ∧
      downHandleErr none = CmdAction.ok ∧ dropHandleErr none = CmdAction.ok ∧
      forceHandleErr none = CmdAction.ok) ∧
    (gotoHandleErr (some EngineErr.noChange) = CmdAction.info ∧
      upHandleErr (some EngineErr.noChange) = CmdAction.info ∧
      downHandleErr (some EngineErr.noChange) = CmdAction.info) ∧
    (∀ e : EngineErr, e ≠ EngineErr.noChange →
      gotoHandleErr (some e) = CmdAction.fatal ∧
      upHandleErr (some e) = CmdAction.fatal ∧
      downHandleErr (some e) = CmdAction.fatal) ∧
    (∀ e : EngineErr, dropHandleErr (some e) = CmdAction.fatal ∧
      forceHandleErr (some e) = CmdAction.fatal) := by
  refine ⟨⟨rfl, rfl, rfl, rfl, rfl⟩, ⟨rfl, rfl, rfl⟩, ?_, ?_⟩
  · intro e he
    refine ⟨?_, ?_, ?_⟩ <;>
      simp [gotoHandleErr, upHandleErr, downHandleErr, he]
  · intro e
    exact ⟨rfl, rfl⟩

/-- Claim C6 witness. -/
theorem handleEngineErr_spec_witness :
    gotoHandleErr (some (EngineErr.other "boom")) = CmdAction.fatal :=
  (handleEngineErr_spec.2.2.1 (EngineErr.other "boom") (by decide)).1

/-- Claim C8 counterexample: for the single numeric argument 2^63 the
parse succeeds but the conversion `int(n)` wraps, so the handler receives
-2^63 rather than the argument value. -/
theorem numDownMigrations_wrap :
    numDownMigrationsFromArgs false ["9223372036854775808"]
      = .ok (-9223372036854775808, false) ∧
    (-9223372036854775808 : Int) ≠ 9223372036854775808 := ⟨rfl, by decide⟩

/-- Claim C8 amended: `numDownMigrationsFromArgs` returns (-1, true) for
no arguments without -all, (toInt64 n, false) for a single numeric
argument n (64-bit signed wrap), (-1, false) for -all without arguments,
and errors when -all is combined with arguments, the argument is not a
number, or more than one argument is given; confirmation is requested only
when the boolean component is true. -/
theorem numDownMigrations_spec :
    numDownMigrationsFromArgs false [] = .ok (-1, true) ∧
    numDownMigrationsFromArgs true [] = .ok (-1, false) ∧
    (∀ a n, parseUint64 a = some n →
      numDownMigrationsFromArgs false [a] = .ok (toInt64 n, false)) ∧
    (∀ a, parseUint64 a = none →
      numDownMigrationsFromArgs false [a]
        = .error "cannot read limit argument N") ∧
    (∀ a rest, numDownMigrationsFromArgs true (a :: rest)
      = .error "-all cannot be used with other arguments") ∧
    (∀ a b rest, numDownMigrationsFromArgs false (a :: b :: rest)
      = .error "too many arguments") ∧
    (∀ applyAll args, downConfirmRequested applyAll args = true →
      numDownMigrationsFromArgs applyAll args = .ok (-1, true)) := by
  refine ⟨rfl, rfl, ?_, ?_, ?_, ?_, ?_⟩
  · intro a n hp
    simp [numDownMigrationsFromArgs, hp]
  · intro a hp
    simp [numDownMigrationsFromArgs, hp]
  · intro a rest
    rfl
  · intro a b rest
    rfl
  · intro applyAll args h
    unfold downConfirmRequested at h
    cases applyAll with
    | true =>
      cases args with
      | nil => simp [numDownMigrationsFromArgs] at h
      | cons a rest => simp [numDownMigrationsFromArgs] at h
    | false =>
      cases args with
      | nil => rfl
      | cons a rest =>
        cases rest with
        | nil =>
          cases hp : parseUint64 a <;> simp [numDownMigrationsFromArgs, hp] at h
        | cons b rest2 => simp [numDownMigrationsFromArgs] at h

/-- Claim C8 witness. -/
theorem numDownMigrations_spec_witness :
    numDownMigrationsFromArgs false ["5"] = .ok (toInt64 5, false) :=
  numDownMigrations_spec.2.2.1 "5" 5 (by decide)

/-- Claim C10: extension normalization maps the empty extension to ".sql",
and for every non-empty extension without a leading dot the inputs `e` and
`"." ++ e` produce identical results, up and down paths included. -/
theorem upAndDownFilePath_ext_insensitive (env : TimeEnv) (dir : String)
    (names : List String) (tz format name : String) (seq : Bool)
    (seqDigits : Int) (e : String) (hne : e ≠ "")
    (hdot : e.data.head? ≠ some '.') :
    normalizeExt "" = ".sql" ∧
    upAndDownFilePath env dir names tz format name e seq seqDigits
      = upAndDownFilePath env dir names tz format name ("." ++ e) seq seqDigits := by
  refine ⟨rfl, ?_⟩
  have h1 : normalizeExt e = normalizeExt ("." ++ e) := by
    rw [normalizeExt_no_dot e hne hdot, normalizeExt_dot e]
  simp only [upAndDownFilePath, h1]

/-- Claim C10 witness. -/
theorem upAndDownFilePath_ext_insensitive_witness :
    normalizeExt "" = ".sql" ∧
    upAndDownFilePath sampleEnv "migrations" [] "" "" "a" "txt" false 6
      = upAndDownFilePath sampleEnv "migrations" [] "" "" "a" ".txt" false 6 :=
  upAndDownFilePath_ext_insensitive sampleEnv "migrations" [] "" "" "a"
    false 6 "txt" (by decide) (by decide)

/-- Claim C4: when some existing file matches the computed version's glob
`version_*ext`, `MakeMigrate` returns the duplicate-migration-version
error and the directory contents are unchanged. -/
theorem MakeMigrate_duplicate_no_write (env : TimeEnv) (dir : String)
    (fs : List (String × String)) (r : MigrateSQLResult)
    (tz format name ext : String) (seq : Bool) (seqDigits : Int)
    (version : String)
    (hne : r.empty = false)
    (hguard : (seq && (format != defaultTimeFormat)) = false)
    (hver : computeVersion env (fs.map Prod.fst) tz format (normalizeExt ext)
        seq seqDigits = .ok version)
    (hdup : (fs.map Prod.fst).any (migMatch version (normalizeExt ext)) = true) :
    MakeMigrate env dir fs (.ok r) tz format name ext seq seqDigits
      = ⟨some ("duplicate migration version: " ++ version), fs, []⟩ := by
  have hup : upAndDownFilePath env dir (fs.map Prod.fst) tz format name ext
      seq seqDigits = .error ("duplicate migration version: " ++ version) := by
    simp only [upAndDownFilePath, hguard, hver, hdup]
    simp
  simp [MakeMigrate, hne, hup]

/-- Claim C4 witness. -/
theorem MakeMigrate_duplicate_no_write_witness :
    MakeMigrate sampleEnv "migrations" [("20240101000000_old.up.sql", "x")]
        (.ok ⟨[("t", ["a"])], [("t", ["b"])], false⟩) "" "" "init" "" false 6
      = ⟨some ("duplicate migration version: " ++ "20240101000000"),
          [("20240101000000_old.up.sql", "x")], []⟩ :=
  MakeMigrate_duplicate_no_write sampleEnv "migrations"
    [("20240101000000_old.up.sql", "x")] ⟨[("t", ["a"])], [("t", ["b"])], false⟩
    "" "" "init" "" false 6 "20240101000000" rfl rfl rfl (by decide)

/-- Claim C3 counterexample: the prefix 18446744073709551615 (= 2^64 - 1)
parses as a uint64, but the increment wraps to 0, so for width 20 the
result is twenty zeros, not the mathematical V + 1 = 18446744073709551616
(which has exactly 20 digits and would fit). -/
theorem nextSeqVersion_overflow :
    nextSeqVersion ["18446744073709551615_a.sql"] ".sql" 20
      = .ok "00000000000000000000" ∧
    ("00000000000000000000" : String) ≠ "18446744073709551616" :=
  ⟨rfl, by decide⟩

/-- Claim C3 amended: with a positive width W, `nextSeqVersion` returns
(V + 1) computed in 64-bit unsigned arithmetic (wrapping at 2^64),
zero-padded to W digits, where V is the numeric prefix of the
lexicographically last matching file (1 unpadded when no file matches);
it errors when W is not positive, when the prefix does not parse as a
uint64 (or lacks an underscore at position ≥ 1), or when the padded value
needs more than W digits. -/
theorem nextSeqVersion_spec (files : List String) (ext : String) (W : Int) :
    (W ≤ 0 → nextSeqVersion files ext W = .error errInvalidSequenceWidth) ∧
    (¬ W ≤ 0 → globSorted files ext = [] →
      nextSeqVersion files ext W = .ok (padZero W 1)) ∧
    (∀ f V, ¬ W ≤ 0 → (globSorted files ext).getLast? = some f →
      1 ≤ strIndexUnderscore f →
      parseUint64 (strTake f (strIndexUnderscore f).toNat) = some V →
      nextSeqVersion files ext W =
        (if W < ((padZero W ((V + 1) % 2 ^ 64)).length : Int) then
          .error ("next sequence number " ++ padZero W ((V + 1) % 2 ^ 64)
            ++ " too large. At most " ++ intDecStr W ++ " digits are allowed")
        else .ok (padZero W ((V + 1) % 2 ^ 64)))) ∧
    (∀ f, ¬ W ≤ 0 → (globSorted files ext).getLast? = some f →
      (strIndexUnderscore f < 1 ∨
        parseUint64 (strTake f (strIndexUnderscore f).toNat) = none) →
      ∃ e, nextSeqVersion files ext W = .error e) := by
  refine ⟨?_, ?_, ?_, ?_⟩
  · intro h
    simp [nextSeqVersion, h]
  · intro hW hglob
    have hlast : (globSorted files ext).getLast? = none := by
      rw [hglob]; rfl
    have hone : ((natDecStr 1).length : Int) ≤ W := by
      rw [natDecStr_one]
      have : ("1" : String).length = 1 := rfl
      omega
    have hlen : ((padZero W 1).length : Int) = W.toNat :=
      padZero_length_of_fit W 1 hone
    simp only [nextSeqVersion, if_neg hW, hlast]
    rw [hlen, if_neg (by omega : ¬ W < ((W.toNat : Nat) : Int))]
  · intro f V hW hlast hidx hparse
    simp only [nextSeqVersion, if_neg hW, hlast]
    rw [if_neg (by omega : ¬ strIndexUnderscore f < 1)]
    simp only [hparse]
  · intro f hW hlast hbad
    simp only [nextSeqVersion, if_neg hW, hlast]
    by_cases hidx : strIndexUnderscore f < 1
    · rw [if_pos hidx]
      exact ⟨_, rfl⟩
    · rw [if_neg hidx]
      rcases hbad with h | h
      · exact absurd h hidx
      · simp only [h]
        exact ⟨_, rfl⟩

/-- Claim C3 witness. -/
theorem nextSeqVersion_spec_witness :
    nextSeqVersion ["000041_x.sql"] ".sql" 6 = .ok "000042" := by
  have h := (nextSeqVersion_spec ["000041_x.sql"] ".sql" 6).2.2.1
    "000041_x.sql" 41 (by decide) (by decide) (by decide) (by decide)
  rw [h]
  rfl
